import Mathlib

/-!
Verification of the Material-Aware Digital Twin dispatch engine.

This file gives a shallow embedding, over exact rational arithmetic, of the
core simulation code of the repository:

* `src/src/optimizer.py`        — `greedy_heuristic_step`
* `src/src/controller.py`       — `run_controller` and its helpers
* `src/src/degradation_models.py` — the PV degradation / temperature models
* `src/src/evaluation.py`       — `kpi_lifecycle`

`src/system_model.py` (providing `SystemParams` and `soc_next`) is imported by
the controller but is absent from the sources; those two items are modelled
from the specification, as marked on their doc comments.

An important property of the source as shipped: the controller invokes
`greedy_heuristic_step` with keyword arguments `price_low=...` and
`price_high=...` that the function's signature in `src/src/optimizer.py` does
not declare, so the Python call raises `TypeError` on the first loop
iteration.  That signature mismatch is modelled explicitly below by the
parameter-name lists `greedyHeuristicStepParamNames` and
`runControllerCallKeywords`.  The executable embedding `run_controller` models
the loop as it would execute with the two undeclared keywords dropped (the
shipped optimizer body never reads them), which is the minimal reading under
which the rest of the pipeline is exercisable.
-/

namespace MADT

/-- Battery section of the configuration mapping (`battery.*` keys of the
configuration contract). -/
structure BatteryConf where
  e_nom_kwh : ℚ
  soc_min : ℚ
  soc_max : ℚ
  p_ch_max : ℚ
  p_dis_max : ℚ
  eta_ch : ℚ
  eta_dis : ℚ
deriving DecidableEq

/-- PV section of the configuration mapping (`pv.*` keys). -/
structure PvConf where
  annual_deg_rate : ℚ
  t_ref_c : ℚ
  temp_coeff_per_c : ℚ
deriving DecidableEq

/-- Economics section of the configuration mapping, with the optional keys
already resolved to their effective values (the code reads them via
`conf.get(...)` with literal defaults). -/
structure EconomicsConf where
  baseline_price_low : ℚ
  baseline_price_high : ℚ
  batt_price_low : ℚ
  batt_price_high : ℚ
  full_price_low : ℚ
  full_price_high : ℚ
  lambda_batt : ℚ
  lambda_batt_full : ℚ
  batt_deg_marginal_gbp_per_kwh : ℚ
  min_economic_spread_gbp_per_kwh : ℚ
deriving DecidableEq

/-- The configuration consumed by `run_controller`; `dt_h` is
`time.dt_minutes / 60` as computed by the callers. -/
structure Config where
  dt_h : ℚ
  battery : BatteryConf
  pv : PvConf
  economics : EconomicsConf
deriving DecidableEq

/-- Modelled from the spec: `src/system_model.py` is missing from the sources;
§3 of the spec lists the fields of the immutable per-run `SystemParameters`
value (step duration, capacity, efficiencies, power limits, SoC bounds,
minimum economic spread).  The PV fields are read separately by the
controller from the configuration, matching the controller code. -/
structure SystemParams where
  dt_h : ℚ
  e_nom_kwh : ℚ
  eta_ch : ℚ
  eta_dis : ℚ
  p_ch_max : ℚ
  p_dis_max : ℚ
  soc_min : ℚ
  soc_max : ℚ
  min_economic_spread_gbp_per_kwh : ℚ
deriving DecidableEq

/-- Modelled from the spec: construction of `SystemParams` from the
configuration (spec §3 and the configuration contract of §6). -/
def systemParams (conf : Config) : SystemParams :=
  ⟨conf.dt_h, conf.battery.e_nom_kwh, conf.battery.eta_ch, conf.battery.eta_dis,
    conf.battery.p_ch_max, conf.battery.p_dis_max, conf.battery.soc_min,
    conf.battery.soc_max, conf.economics.min_economic_spread_gbp_per_kwh⟩

/-- Modelled from the spec: `soc_next` lives in the missing
`src/system_model.py`; spec §4.3 step 7 gives the integration rule
`soc' = soc + (charge·eta_ch − discharge/eta_dis)·dt / capacity` (the window
clamp is applied afterwards by the controller itself, as in the code). -/
def soc_next (soc p_ch p_dis dt_h eta_ch eta_dis e_nom_kwh : ℚ) : ℚ :=
  soc + (p_ch * eta_ch - p_dis / eta_dis) * dt_h / e_nom_kwh

/-- The scenario selector strings accepted by `run_controller`. -/
inductive Scenario where
  | baseline
  | batt
  | full
deriving DecidableEq

/-- One row of the input series (input-series contract, spec §6).  `hour` is
the hour component of the row's time index: the controller reads it inside a
`try`/`except` and uses `none` when the index has no `.hour`. -/
structure StepInput where
  pv_kw_raw : ℚ
  load_kw : ℚ
  cell_temp_c : ℚ
  price_import_gbp_per_kwh : ℚ
  price_export_gbp_per_kwh : ℚ
  hour : Option ℤ
deriving DecidableEq

/-- One row of the output series: the input row (the controller works on a
copy of the input frame) together with the columns the loop writes. -/
structure StepRecord where
  inp : StepInput
  soc : ℚ
  pch : ℚ
  pdis : ℚ
  pimp : ℚ
  pexp : ℚ
  pv_kw_eff : ℚ
  deg_cost_pv : ℚ
deriving DecidableEq

/-- The 4-tuple `(p_ch, p_dis, p_imp, p_exp)` returned by the optimizer. -/
structure Dispatch where
  pch : ℚ
  pdis : ℚ
  pimp : ℚ
  pexp : ℚ
deriving DecidableEq

/-- `pv_degraded_power_kw` from `src/src/degradation_models.py`:
`factor = max(0, 1 - annual_rate*(t_hours/8760)); return pv_kw_raw * factor`
(the `hours_per_year` parameter defaults to 8760 and no caller overrides it,
so it is inlined here). -/
def pv_degraded_power_kw (pv_kw_raw t_hours_from_start annual_rate : ℚ) : ℚ :=
  pv_kw_raw * max 0 (1 - annual_rate * (t_hours_from_start / 8760))

/-- `pv_temp_correction_kw` from `src/src/degradation_models.py`. -/
def pv_temp_correction_kw (pv_kw temp_c t_ref_c beta_per_c : ℚ) : ℚ :=
  pv_kw * (1 - beta_per_c * (temp_c - t_ref_c))

/-- `pv_degradation_cost_step` from `src/src/degradation_models.py`:
`lost_kw = max(0, pv_kw_raw - pv_kw_temp); lost_kw * price * dt_h`. -/
def pv_degradation_cost_step (pv_kw_raw pv_kw_temp price_ref_gbp_per_kwh dt_h : ℚ) : ℚ :=
  max 0 (pv_kw_raw - pv_kw_temp) * price_ref_gbp_per_kwh * dt_h

/-- `np.quantile([x0, x1, x2, x3], 0.5)` with the default linear
interpolation: the mean of the two middle order statistics of the four
values.  (`max(min x0 x1, min x2 x3)` and `min(max x0 x1, max x2 x3)` are
exactly the second-smallest and second-largest of the four.) -/
def npQuantileHalf (x0 x1 x2 x3 : ℚ) : ℚ :=
  (max (min x0 x1) (min x2 x3) + min (max x0 x1) (max x2 x3)) / 2

/-- `greedy_heuristic_step` from `src/src/optimizer.py`, literally: PV first
covers load; a surplus is offered to charging (bounded by headroom-to-soc_max
and max charge power) with the rest exported; a deficit is covered by
discharge only when `price_imp > np.quantile([price_imp, 0.30, 0.40, 0.20],
0.5)`, bounded by energy above `soc_min` and max discharge power, and the
remainder imported. -/
def greedy_heuristic_step (pv_kw load_kw price_imp price_exp soc : ℚ)
    (params : SystemParams) : Dispatch :=
  let dt := params.dt_h
  let net := pv_kw - load_kw
  if 0 ≤ net then
    let headroom_kwh := (params.soc_max - soc) * params.e_nom_kwh
    let max_charge_kw := min params.p_ch_max (headroom_kwh / dt)
    let p_ch := min max_charge_kw net
    ⟨p_ch, 0, 0, max 0 (net - p_ch)⟩
  else
    let deficit := -net
    let available_kwh := max 0 ((soc - params.soc_min) * params.e_nom_kwh)
    let max_dis_kw := min params.p_dis_max (available_kwh / dt)
    if npQuantileHalf price_imp (3/10) (2/5) (1/5) < price_imp then
      let p_dis := min max_dis_kw deficit
      ⟨0, p_dis, max 0 (deficit - p_dis), 0⟩
    else
      ⟨0, 0, max 0 deficit, 0⟩

/-- The declared parameter names of `greedy_heuristic_step` in
`src/src/optimizer.py` line 4. -/
def greedyHeuristicStepParamNames : List String :=
  ["pv_kw", "load_kw", "price_imp", "price_exp", "soc", "params"]

/-- The keyword-argument names supplied at the call of
`greedy_heuristic_step` inside `run_controller` (`src/src/controller.py`
lines 81–84).  A Python call raises `TypeError` whenever it supplies a
keyword that the callee's signature does not declare. -/
def runControllerCallKeywords : List String :=
  ["pv_kw", "load_kw", "price_imp", "price_exp", "soc", "params",
   "price_low", "price_high"]

/-- The output columns `run_controller` creates on the copied input frame
(`src/src/controller.py` line 26) — also exactly the columns the loop and the
final clipping write to. -/
def runControllerAddedColumns : List String :=
  ["soc", "pch", "pdis", "pimp", "pexp", "pv_kw_eff", "deg_cost_pv"]

/-- `_thresholds` from `src/src/controller.py` (with the `conf.get` defaults
already resolved into the `EconomicsConf` fields). -/
def _thresholds (e : EconomicsConf) (scenario : Scenario) : ℚ × ℚ :=
  match scenario with
  | .baseline => (e.baseline_price_low, e.baseline_price_high)
  | .batt => (e.batt_price_low, e.batt_price_high)
  | .full => (e.full_price_low, e.full_price_high)

/-- `_lambda_batt` from `src/src/controller.py`. -/
def _lambda_batt (e : EconomicsConf) (scenario : Scenario) : ℚ :=
  match scenario with
  | .baseline => 0
  | .batt => e.lambda_batt
  | .full => e.lambda_batt_full

/-- The `soc_win` dictionary of `run_controller`: the physical window for
"baseline", narrowed windows for "batt" ([0.15, 0.85] intersection) and
"full" ([0.20, 0.80] intersection). -/
def socWindow (params : SystemParams) (scenario : Scenario) : ℚ × ℚ :=
  match scenario with
  | .baseline => (params.soc_min, params.soc_max)
  | .batt => (max params.soc_min (3/20), min params.soc_max (17/20))
  | .full => (max params.soc_min (1/5), min params.soc_max (4/5))

/-- The `_ParamView` class of `run_controller`: the physical parameters with
`soc_min`/`soc_max` replaced by the scenario's operating window. -/
def paramView (params : SystemParams) (win : ℚ × ℚ) : SystemParams :=
  { params with soc_min := win.1, soc_max := win.2 }

/-- The per-step threshold overrides computed by `run_controller`: the
scenario thresholds, the baseline time-of-use saturations (`±1e6` for hours
0–6 / 16–22 when the index has an hour), and the "full"-scenario override
`p_high_use = 1e9` when `cell_temp_c >= 35`.  These values are passed to the
optimizer as the undeclared keywords `price_low`/`price_high` (see
`runControllerCallKeywords`); the shipped optimizer body never reads them. -/
def effectiveThresholds (conf : Config) (scenario : Scenario) (row : StepInput) : ℚ × ℚ :=
  let pl := (_thresholds conf.economics scenario).1
  let ph := (_thresholds conf.economics scenario).2
  let pl1 :=
    match scenario, row.hour with
    | .baseline, some h => if 0 ≤ h ∧ h ≤ 6 then (1000000 : ℚ) else pl
    | _, _ => pl
  let ph1 :=
    match scenario, row.hour with
    | .baseline, some h => if 16 ≤ h ∧ h ≤ 22 then (-1000000 : ℚ) else ph
    | _, _ => ph
  if scenario = .full ∧ 35 ≤ row.cell_temp_c then (pl1, 1000000000) else (pl1, ph1)

/-- Initial SoC of the loop:
`(conf["battery"]["soc_min"] + conf["battery"]["soc_max"]) / 2`. -/
def initSoc (conf : Config) : ℚ :=
  (conf.battery.soc_min + conf.battery.soc_max) / 2

/-- Effective PV power at step `t`: aging derating at elapsed time `t*dt_h`
followed by the cell-temperature correction, as in the loop body. -/
def pvEffAt (conf : Config) (t : ℕ) (row : StepInput) : ℚ :=
  pv_temp_correction_kw
    (pv_degraded_power_kw row.pv_kw_raw ((t : ℚ) * conf.dt_h) conf.pv.annual_deg_rate)
    row.cell_temp_c conf.pv.t_ref_c conf.pv.temp_coeff_per_c

/-- `price_imp_eff = price_imp + lam_b * batt_deg_pen` from the loop body. -/
def effImportPrice (conf : Config) (scenario : Scenario) (row : StepInput) : ℚ :=
  row.price_import_gbp_per_kwh +
    _lambda_batt conf.economics scenario * conf.economics.batt_deg_marginal_gbp_per_kwh

/-- The export post-processing of the loop: if `pexp > max(0, pv_eff - load)`
the excess `over` is removed from export and `pdis` becomes
`max(0, pdis - over)` (battery-sourced export is disallowed). -/
def exportCapped (pv_eff load_kw : ℚ) (d : Dispatch) : Dispatch :=
  if max 0 (pv_eff - load_kw) < d.pexp then
    { d with pexp := max 0 (pv_eff - load_kw),
             pdis := max 0 (d.pdis - (d.pexp - max 0 (pv_eff - load_kw))) }
  else d

/-- The dispatch actually recorded at step `t`: the optimizer applied to the
effective PV/price with the `_ParamView` window, then the export cap. -/
def stepDispatch (conf : Config) (scenario : Scenario) (t : ℕ) (soc : ℚ)
    (row : StepInput) : Dispatch :=
  exportCapped (pvEffAt conf t row) row.load_kw
    (greedy_heuristic_step (pvEffAt conf t row) row.load_kw
      (effImportPrice conf scenario row) row.price_export_gbp_per_kwh soc
      (paramView (systemParams conf) (socWindow (systemParams conf) scenario)))

/-- The output row written at step `t` (before the frame-level clipping
applied after the loop): note the code stores the SoC value held *before*
`soc_next` runs. -/
def stepRecord (conf : Config) (scenario : Scenario) (t : ℕ) (soc : ℚ)
    (row : StepInput) : StepRecord :=
  { inp := row
    soc := soc
    pch := (stepDispatch conf scenario t soc row).pch
    pdis := (stepDispatch conf scenario t soc row).pdis
    pimp := (stepDispatch conf scenario t soc row).pimp
    pexp := (stepDispatch conf scenario t soc row).pexp
    pv_kw_eff := pvEffAt conf t row
    deg_cost_pv := pv_degradation_cost_step row.pv_kw_raw (pvEffAt conf t row)
      row.price_import_gbp_per_kwh conf.dt_h }

/-- The SoC carried into step `t+1`: `soc_next` followed by the
`if soc < win[0] ... elif soc > win[1]` clamp of the loop. -/
def stepNextSoc (conf : Config) (scenario : Scenario) (t : ℕ) (soc : ℚ)
    (row : StepInput) : ℚ :=
  let d := stepDispatch conf scenario t soc row
  let w := socWindow (systemParams conf) scenario
  let s1 := soc_next soc d.pch d.pdis conf.dt_h conf.battery.eta_ch
    conf.battery.eta_dis conf.battery.e_nom_kwh
  if s1 < w.1 then w.1 else if w.2 < s1 then w.2 else s1

/-- The controller loop: step index and SoC threaded over the input rows;
returns the recorded rows (pre-clipping) and the final SoC state. -/
def runAux (conf : Config) (scenario : Scenario) :
    ℕ → ℚ → List StepInput → List StepRecord × ℚ
  | _, soc, [] => ([], soc)
  | t, soc, row :: rest =>
      (stepRecord conf scenario t soc row ::
        (runAux conf scenario (t + 1) (stepNextSoc conf scenario t soc row) rest).1,
       (runAux conf scenario (t + 1) (stepNextSoc conf scenario t soc row) rest).2)

/-- The frame-level clipping applied after the loop:
`out[c].clip(lower=0)` for the four power columns and
`out["soc"].clip(lower=soc_win[0], upper=1.0)`. -/
def finClip (w1 : ℚ) (r : StepRecord) : StepRecord :=
  { r with pch := max r.pch 0, pdis := max r.pdis 0, pimp := max r.pimp 0,
           pexp := max r.pexp 0, soc := min (max r.soc w1) 1 }

/-- `run_controller` from `src/src/controller.py`, as the loop would execute
with the two undeclared keyword arguments dropped (see the module comment and
`runControllerCallKeywords`: the Python call in fact raises `TypeError`). -/
def run_controller (conf : Config) (scenario : Scenario)
    (rows : List StepInput) : List StepRecord :=
  ((runAux conf scenario 0 (initSoc conf) rows).1).map
    (finClip (socWindow (systemParams conf) scenario).1)

/-- The SoC state entering step `t` of a run (the fold of `stepNextSoc` over
the first `t` input rows, starting from `initSoc`). -/
def socStart (conf : Config) (scenario : Scenario) (rows : List StepInput)
    (t : ℕ) : ℚ :=
  (runAux conf scenario 0 (initSoc conf) (rows.take t)).2

/-- `kpi_lifecycle` from `src/src/evaluation.py`, as invoked through
`summarize_kpis` (which sets `dt_h` and `e_nom_kwh` on the frame):
`dis_kwh = pdis.clip(lower=0).sum() * dt_h` and
`equivalent_full_cycles = dis_kwh / max(e_nom_kwh, 1.0)`. -/
def kpi_lifecycle (pdis : List ℚ) (dt_h e_nom_kwh : ℚ) : ℚ :=
  ((pdis.map (fun p => max p 0)).sum * dt_h) / max e_nom_kwh 1

/-- A concrete configuration used as a test fixture: `dt_h = 0.25 h`,
battery 10 kWh with physical SoC window [0.1, 0.9], 5 kW power limits,
efficiencies 0.95, PV degradation 1 %/yr at 25 °C reference with
0.004 /°C coefficient, and the economics defaults of the source. -/
def cfgW : Config :=
  ⟨1/4, ⟨10, 1/10, 9/10, 5, 5, 19/20, 19/20⟩, ⟨1/100, 25, 1/250⟩,
   ⟨19/100, 33/100, 21/100, 8/25, 11/50, 17/50, 4/5, 6/5, 1/50, 1/100⟩⟩

/-- A surplus input row: 5 kW PV, 1 kW load, 25 °C, prices 0.30/0.10. -/
def rowW : StepInput := ⟨5, 1, 25, 3/10, 1/10, none⟩

/-- A hot deficit row: no PV, 1 kW load, 35 °C cell temperature, and an
own import price of 0.50. -/
def rowHot : StepInput := ⟨0, 1, 35, 1/2, 1/10, none⟩

/-- Like `cfgW` but with physical SoC window [0.70, 0.95] (well-formed under
the configuration contract `0 ≤ soc_min < soc_max ≤ 1`); its midpoint 0.825
lies above the "full"-scenario operating window [0.70, 0.80]. -/
def cfgHi : Config :=
  ⟨1/4, ⟨10, 7/10, 19/20, 5, 5, 19/20, 19/20⟩, ⟨1/100, 25, 1/250⟩,
   ⟨19/100, 33/100, 21/100, 8/25, 11/50, 17/50, 4/5, 6/5, 1/50, 1/100⟩⟩

/-- The single output row of `run_controller cfgW Scenario.full [rowW]`:
SoC 0.5 (the initial SoC), 4 kW charge, effective PV 5 kW. -/
def recW : StepRecord := ⟨rowW, 1/2, 4, 0, 0, 0, 5, 0⟩

/-- The `_ParamView`-style parameter set used as the witness fixture for the
optimizer-level claims: dt 0.25 h, 10 kWh, 0.95 efficiencies, 5 kW limits,
operating window [0.2, 0.8]. -/
def prmW : SystemParams := ⟨1/4, 10, 19/20, 19/20, 5, 5, 1/5, 4/5, 1/100⟩


/-! ## Helper lemmas -/

/-- Per-step energy balance of the clipped dispatch: effective PV plus
discharge plus import equals load plus charge plus export, through every
branch of the optimizer, the export cap and the final non-negativity clip. -/
lemma stepDispatch_balance (conf : Config) (scenario : Scenario) (t : ℕ) (soc : ℚ)
    (row : StepInput) (hdt : 0 < conf.dt_h) (hpd : 0 ≤ conf.battery.p_dis_max) :
    pvEffAt conf t row + max (stepDispatch conf scenario t soc row).pdis 0 +
        max (stepDispatch conf scenario t soc row).pimp 0 =
      row.load_kw + max (stepDispatch conf scenario t soc row).pch 0 +
        max (stepDispatch conf scenario t soc row).pexp 0 := by
  set pv := pvEffAt conf t row with hpv
  set L := row.load_kw with hL
  set P := paramView (systemParams conf) (socWindow (systemParams conf) scenario) with hP
  have hPd : P.p_dis_max = conf.battery.p_dis_max := by
    simp [hP, paramView, systemParams]
  have hPdt : P.dt_h = conf.dt_h := by
    simp [hP, paramView, systemParams]
  rcases le_or_lt 0 (pv - L) with hnet | hnet
  · -- surplus branch of the optimizer
    have hg : greedy_heuristic_step pv L (effImportPrice conf scenario row)
        row.price_export_gbp_per_kwh soc P =
        ⟨min (min P.p_ch_max ((P.soc_max - soc) * P.e_nom_kwh / P.dt_h)) (pv - L), 0, 0,
          max 0 (pv - L - min (min P.p_ch_max ((P.soc_max - soc) * P.e_nom_kwh / P.dt_h)) (pv - L))⟩ := by
      simp only [greedy_heuristic_step, if_pos hnet]
    set c := min (min P.p_ch_max ((P.soc_max - soc) * P.e_nom_kwh / P.dt_h)) (pv - L) with hc
    have hcle : c ≤ pv - L := min_le_right _ _
    have hexp0 : max 0 (pv - L - c) = pv - L - c := max_eq_right (by linarith)
    have hsur : max 0 (pv - L) = pv - L := max_eq_right hnet
    rcases le_or_lt 0 c with hcpos | hcneg
    · have hnotrig : ¬ max 0 (pv - L) < (Dispatch.mk c 0 0 (max 0 (pv - L - c))).pexp := by
        simp only [Dispatch.mk.injEq]
        rw [hexp0, hsur]
        push_neg
        linarith
      have hd : stepDispatch conf scenario t soc row = ⟨c, 0, 0, pv - L - c⟩ := by
        rw [stepDispatch, ← hpv, ← hL, ← hP, hg, exportCapped, if_neg hnotrig, hexp0]
      rw [hd]
      simp only
      rw [max_eq_left hcpos, max_self, max_eq_left (by linarith : (0:ℚ) ≤ pv - L - c)]
      ring
    · -- negative charge: the export cap fires, the final clip removes it
      have htrig : max 0 (pv - L) < (Dispatch.mk c 0 0 (max 0 (pv - L - c))).pexp := by
        simp only
        rw [hexp0, hsur]
        linarith
      have hd : stepDispatch conf scenario t soc row =
          ⟨c, max 0 (0 - (max 0 (pv - L - c) - max 0 (pv - L))), 0, max 0 (pv - L)⟩ := by
        rw [stepDispatch, ← hpv, ← hL, ← hP, hg, exportCapped, if_pos htrig]
      rw [hd]
      simp only
      rw [hexp0, hsur]
      have h1 : max 0 (0 - (pv - L - c - (pv - L))) = max 0 c := by ring_nf
      rw [h1, max_eq_left (le_of_lt hcneg)]
      rw [max_self, max_eq_right (le_of_lt hcneg), max_eq_left hnet]
      ring
  · -- deficit branch
    have hnn : ¬ 0 ≤ pv - L := not_le.mpr hnet
    have havail : 0 ≤ max 0 ((soc - P.soc_min) * P.e_nom_kwh) / P.dt_h := by
      apply div_nonneg (le_max_left _ _)
      rw [hPdt]; exact le_of_lt hdt
    have hmd : 0 ≤ min P.p_dis_max (max 0 ((soc - P.soc_min) * P.e_nom_kwh) / P.dt_h) := by
      apply le_min _ havail
      rw [hPd]; exact hpd
    set md := min P.p_dis_max (max 0 ((soc - P.soc_min) * P.e_nom_kwh) / P.dt_h) with hmdd
    by_cases hq : npQuantileHalf (effImportPrice conf scenario row) (3/10) (2/5) (1/5) <
        effImportPrice conf scenario row
    · have hg : greedy_heuristic_step pv L (effImportPrice conf scenario row)
          row.price_export_gbp_per_kwh soc P =
          ⟨0, min md (-(pv - L)), max 0 (-(pv - L) - min md (-(pv - L))), 0⟩ := by
        simp only [greedy_heuristic_step, if_neg hnn, if_pos hq]
      set dis := min md (-(pv - L)) with hdis
      have hdis0 : 0 ≤ dis := le_min hmd (by linarith)
      have hdisle : dis ≤ -(pv - L) := min_le_right _ _
      have himp : max 0 (-(pv - L) - dis) = -(pv - L) - dis := max_eq_right (by linarith)
      have hnotrig : ¬ max 0 (pv - L) < (Dispatch.mk 0 dis (max 0 (-(pv - L) - dis)) 0).pexp := by
        simp only
        push_neg
        exact le_max_left _ _
      have hd : stepDispatch conf scenario t soc row = ⟨0, dis, -(pv - L) - dis, 0⟩ := by
        rw [stepDispatch, ← hpv, ← hL, ← hP, hg, exportCapped, if_neg hnotrig, himp]
      rw [hd]
      simp only
      rw [max_eq_left hdis0, max_eq_left (by linarith : (0:ℚ) ≤ -(pv - L) - dis), max_self]
      ring
    · have hg : greedy_heuristic_step pv L (effImportPrice conf scenario row)
          row.price_export_gbp_per_kwh soc P =
          ⟨0, 0, max 0 (-(pv - L)), 0⟩ := by
        simp only [greedy_heuristic_step, if_neg hnn, if_neg hq]
      have himp : max 0 (-(pv - L)) = -(pv - L) := max_eq_right (by linarith)
      have hnotrig : ¬ max 0 (pv - L) < (Dispatch.mk 0 0 (max 0 (-(pv - L))) 0).pexp := by
        simp only
        push_neg
        exact le_max_left _ _
      have hd : stepDispatch conf scenario t soc row = ⟨0, 0, -(pv - L), 0⟩ := by
        rw [stepDispatch, ← hpv, ← hL, ← hP, hg, exportCapped, if_neg hnotrig, himp]
      rw [hd]
      simp only
      rw [max_self, max_eq_left (by linarith : (0:ℚ) ≤ -(pv - L))]
      ring

/-- Every row the loop emits is a `stepRecord` for some step index, SoC and
input row. -/
lemma runAux_mem (conf : Config) (scenario : Scenario) :
    ∀ (rows : List StepInput) (t : ℕ) (s : ℚ) (r : StepRecord),
      r ∈ (runAux conf scenario t s rows).1 →
      ∃ t' s' row, r = stepRecord conf scenario t' s' row := by
  intro rows
  induction rows with
  | nil => intro t s r hr; simp [runAux] at hr
  | cons row rest ih =>
      intro t s r hr
      simp only [runAux, List.mem_cons] at hr
      rcases hr with h | h
      · exact ⟨t, s, row, h⟩
      · exact ih (t + 1) (stepNextSoc conf scenario t s row) r h

/-- The scenario operating window's lower edge is non-negative whenever the
physical `soc_min` is. -/
lemma socWindow_fst_nonneg (p : SystemParams) (scenario : Scenario)
    (h0 : 0 ≤ p.soc_min) : 0 ≤ (socWindow p scenario).1 := by
  cases scenario
  · exact h0
  · exact le_max_of_le_left h0
  · exact le_max_of_le_left h0

/-- The scenario operating window's upper edge is at most 1 whenever the
physical `soc_max` is. -/
lemma socWindow_snd_le_one (p : SystemParams) (scenario : Scenario)
    (h2 : p.soc_max ≤ 1) : (socWindow p scenario).2 ≤ 1 := by
  cases scenario
  · exact h2
  · exact le_trans (min_le_left _ _) h2
  · exact le_trans (min_le_left _ _) h2

/-- The end-of-step clamp keeps the SoC state inside a non-empty operating
window. -/
lemma stepNextSoc_mem (conf : Config) (scenario : Scenario) (t : ℕ) (s : ℚ) (row : StepInput)
    (hw : (socWindow (systemParams conf) scenario).1 ≤ (socWindow (systemParams conf) scenario).2) :
    (socWindow (systemParams conf) scenario).1 ≤ stepNextSoc conf scenario t s row ∧
      stepNextSoc conf scenario t s row ≤ (socWindow (systemParams conf) scenario).2 := by
  rw [stepNextSoc]
  split_ifs with h1 h2
  · exact ⟨le_refl _, hw⟩
  · exact ⟨hw, le_refl _⟩
  · exact ⟨not_lt.mp h1, not_lt.mp h2⟩

/-- Window membership is invariant along the loop: if the state entering the
remaining rows is inside the window, so is every recorded (pre-step) SoC. -/
lemma runAux_soc_bounds (conf : Config) (scenario : Scenario)
    (hw : (socWindow (systemParams conf) scenario).1 ≤ (socWindow (systemParams conf) scenario).2) :
    ∀ (rows : List StepInput) (t : ℕ) (s : ℚ),
      (socWindow (systemParams conf) scenario).1 ≤ s →
      s ≤ (socWindow (systemParams conf) scenario).2 →
      ∀ r ∈ (runAux conf scenario t s rows).1,
        (socWindow (systemParams conf) scenario).1 ≤ r.soc ∧
          r.soc ≤ (socWindow (systemParams conf) scenario).2 := by
  intro rows
  induction rows with
  | nil => intro t s _ _ r hr; simp [runAux] at hr
  | cons row rest ih =>
      intro t s hs1 hs2 r hr
      simp only [runAux, List.mem_cons] at hr
      rcases hr with h | h
      · subst h; exact ⟨hs1, hs2⟩
      · rcases stepNextSoc_mem conf scenario t s row hw with ⟨ha, hb⟩
        exact ih (t + 1) (stepNextSoc conf scenario t s row) ha hb r h

/-- The `soc` stored at position `t` by the loop is the state that entered
step `t` (the fold of `stepNextSoc` over the first `t` rows). -/
lemma runAux_get_soc (conf : Config) (scenario : Scenario) :
    ∀ (rows : List StepInput) (t0 : ℕ) (s : ℚ) (t : ℕ), t < rows.length →
      Option.map StepRecord.soc ((runAux conf scenario t0 s rows).1[t]?) =
        some ((runAux conf scenario t0 s (rows.take t)).2) := by
  intro rows
  induction rows with
  | nil => intro t0 s t ht; simp at ht
  | cons row rest ih =>
      intro t0 s t ht
      cases t with
      | zero => simp [runAux, stepRecord]
      | succ n =>
          have hn : n < rest.length := by simpa using ht
          simp only [runAux, List.getElem?_cons_succ, List.take_succ_cons]
          exact ih (t0 + 1) (stepNextSoc conf scenario t0 s row) n hn

/-! ## Claims -/

/-- C1 (code-bug evidence): `run_controller` supplies the keyword arguments
`price_low` and `price_high` to `greedy_heuristic_step`, but the optimizer's
signature declares neither, so the Python call raises `TypeError` on the
first loop iteration of every non-empty run — the loop never reaches the end
of the input and no series is returned. -/
theorem call_keywords_not_in_optimizer_signature :
    "price_low" ∈ runControllerCallKeywords ∧ "price_high" ∈ runControllerCallKeywords ∧
      "price_low" ∉ greedyHeuristicStepParamNames ∧
      "price_high" ∉ greedyHeuristicStepParamNames := by
  decide

/-- C2 (counterexample): the set of output columns `run_controller` creates
and writes contains no `deg_cost_batt` column, for any scenario — contrary to
the claim that "batt"/"full" runs record a per-step battery degradation cost
column. -/
theorem no_deg_cost_batt_column : "deg_cost_batt" ∉ runControllerAddedColumns := by
  decide

/-- C2 (amended): no battery-degradation-cost column is produced in any
scenario; battery degradation enters the run only through the effective
price of import, which adds `lambda_batt * batt_deg_marginal_gbp_per_kwh`
("batt") or `lambda_batt_full * batt_deg_marginal_gbp_per_kwh` ("full") to
the raw import price; `simple_battery_deg_cost_step` is never invoked by the
controller. -/
theorem battery_degradation_only_via_price_signal :
    "deg_cost_batt" ∉ runControllerAddedColumns ∧
      (∀ (conf : Config) (row : StepInput),
        effImportPrice conf Scenario.batt row =
          row.price_import_gbp_per_kwh +
            conf.economics.lambda_batt * conf.economics.batt_deg_marginal_gbp_per_kwh) ∧
      (∀ (conf : Config) (row : StepInput),
        effImportPrice conf Scenario.full row =
          row.price_import_gbp_per_kwh +
            conf.economics.lambda_batt_full * conf.economics.batt_deg_marginal_gbp_per_kwh) :=
  ⟨by decide, fun _ _ => rfl, fun _ _ => rfl⟩

/-- C3: for every configuration with positive step duration and non-negative
max discharge power, every scenario and every input series, each returned row
satisfies the energy balance
`pv_kw_eff + pdis + pimp = load_kw + pch + pexp` exactly (in ℚ). -/
theorem energy_balance (conf : Config) (scenario : Scenario) (rows : List StepInput)
    (hdt : 0 < conf.dt_h) (hpd : 0 ≤ conf.battery.p_dis_max) :
    ∀ r ∈ run_controller conf scenario rows,
      r.pv_kw_eff + r.pdis + r.pimp = r.inp.load_kw + r.pch + r.pexp := by
  intro r hr
  rw [run_controller] at hr
  rcases List.mem_map.mp hr with ⟨r0, hr0, rfl⟩
  rcases runAux_mem conf scenario rows 0 (initSoc conf) r0 hr0 with ⟨t', s', row, rfl⟩
  have hb := stepDispatch_balance conf scenario t' s' row hdt hpd
  simpa [finClip, stepRecord] using hb

/-- C3 witness: the energy balance at the concrete run
`run_controller cfgW Scenario.full [rowW]`, whose only row is `recW`. -/
theorem energy_balance_witness :
    recW.pv_kw_eff + recW.pdis + recW.pimp = recW.inp.load_kw + recW.pch + recW.pexp :=
  energy_balance cfgW Scenario.full [rowW] (by norm_num [cfgW]) (by norm_num [cfgW]) recW
    (by norm_num [run_controller, runAux, stepRecord, stepDispatch, exportCapped,
      greedy_heuristic_step, npQuantileHalf, effImportPrice, pvEffAt, pv_temp_correction_kw,
      pv_degraded_power_kw, paramView, systemParams, socWindow, initSoc, finClip,
      pv_degradation_cost_step, _lambda_batt, _thresholds, cfgW, rowW, recW, min_def, max_def])

/-- C4 (counterexample): under the configuration contract
`0 ≤ soc_min < soc_max ≤ 1` (witnessed by `cfgHi`, window [0.70, 0.95]), the
"full" scenario's first recorded SoC is the initial midpoint 0.825, which
exceeds the active operating window's upper edge 0.80 — so not every recorded
`soc` value lies within the scenario's active SoC window. -/
theorem initial_soc_can_exceed_window_max :
    (0:ℚ) ≤ cfgHi.battery.soc_min ∧ cfgHi.battery.soc_min < cfgHi.battery.soc_max ∧
      cfgHi.battery.soc_max ≤ 1 ∧
      Option.map StepRecord.soc ((run_controller cfgHi Scenario.full [rowW]).head?) =
        some (33/40) ∧
      (socWindow (systemParams cfgHi) Scenario.full).2 = 4/5 ∧
      ¬ ((33/40 : ℚ) ≤ 4/5) := by
  refine ⟨by norm_num [cfgHi], by norm_num [cfgHi], by norm_num [cfgHi], ?_, ?_, by norm_num⟩
  · norm_num [run_controller, runAux, stepRecord, stepDispatch, exportCapped,
      greedy_heuristic_step, npQuantileHalf, effImportPrice, pvEffAt, pv_temp_correction_kw,
      pv_degraded_power_kw, paramView, systemParams, socWindow, initSoc, finClip,
      pv_degradation_cost_step, _lambda_batt, _thresholds, cfgHi, rowW, min_def, max_def]
  · norm_num [socWindow, systemParams, cfgHi, min_def, max_def]

/-- C4 (amended): for a contract-conforming configuration
(`0 ≤ soc_min`, `soc_max ≤ 1`) with a non-empty active window, every recorded
`soc` value lies in `[window_min, 1]` (hence in `[0, 1]`), and every recorded
`soc` except possibly the first — i.e. every post-step state — lies within
the active window `[window_min, window_max]`; only the initial midpoint SoC
recorded at row 0 can exceed `window_max`. -/
theorem soc_bounds_amended (conf : Config) (scenario : Scenario) (rows : List StepInput)
    (h0 : 0 ≤ conf.battery.soc_min) (h2 : conf.battery.soc_max ≤ 1)
    (hw : (socWindow (systemParams conf) scenario).1 ≤ (socWindow (systemParams conf) scenario).2) :
    (∀ r ∈ run_controller conf scenario rows,
        (socWindow (systemParams conf) scenario).1 ≤ r.soc ∧ 0 ≤ r.soc ∧ r.soc ≤ 1) ∧
      (∀ r ∈ (run_controller conf scenario rows).tail,
        (socWindow (systemParams conf) scenario).1 ≤ r.soc ∧
          r.soc ≤ (socWindow (systemParams conf) scenario).2) := by
  have hpmin : (systemParams conf).soc_min = conf.battery.soc_min := rfl
  have hpmax : (systemParams conf).soc_max = conf.battery.soc_max := rfl
  have hw1nn : 0 ≤ (socWindow (systemParams conf) scenario).1 :=
    socWindow_fst_nonneg _ _ (by rw [hpmin]; exact h0)
  have hw2le : (socWindow (systemParams conf) scenario).2 ≤ 1 :=
    socWindow_snd_le_one _ _ (by rw [hpmax]; exact h2)
  have hw1le : (socWindow (systemParams conf) scenario).1 ≤ 1 := le_trans hw hw2le
  constructor
  · intro r hr
    rw [run_controller] at hr
    rcases List.mem_map.mp hr with ⟨r0, _, rfl⟩
    refine ⟨le_min (le_max_right _ _) hw1le, ?_, min_le_right _ _⟩
    exact le_min (le_trans hw1nn (le_max_right _ _)) zero_le_one
  · intro r hr
    cases rows with
    | nil => simp [run_controller, runAux] at hr
    | cons row rest =>
        rw [run_controller] at hr
        simp only [runAux, List.map_cons, List.tail_cons] at hr
        rcases List.mem_map.mp hr with ⟨r0, hr0, rfl⟩
        rcases stepNextSoc_mem conf scenario 0 (initSoc conf) row hw with ⟨ha, hb⟩
        rcases runAux_soc_bounds conf scenario hw rest 1
          (stepNextSoc conf scenario 0 (initSoc conf) row) ha hb r0 hr0 with ⟨hc, hd⟩
        have hsoc : (finClip (socWindow (systemParams conf) scenario).1 r0).soc = r0.soc := by
          simp only [finClip]
          rw [max_eq_left hc, min_eq_left (le_trans hd hw2le)]
        rw [hsoc]
        exact ⟨hc, hd⟩

/-- C4 witness: the amended bounds at the concrete run
`run_controller cfgW Scenario.full [rowW]` and its row `recW`. -/
theorem soc_bounds_amended_witness :
    (socWindow (systemParams cfgW) Scenario.full).1 ≤ recW.soc ∧ 0 ≤ recW.soc ∧
      recW.soc ≤ 1 :=
  (soc_bounds_amended cfgW Scenario.full [rowW] (by norm_num [cfgW]) (by norm_num [cfgW])
      (by norm_num [socWindow, systemParams, cfgW, min_def, max_def])).1 recW
    (by norm_num [run_controller, runAux, stepRecord, stepDispatch, exportCapped,
      greedy_heuristic_step, npQuantileHalf, effImportPrice, pvEffAt, pv_temp_correction_kw,
      pv_degraded_power_kw, paramView, systemParams, socWindow, initSoc, finClip,
      pv_degradation_cost_step, _lambda_batt, _thresholds, cfgW, rowW, recW, min_def, max_def])

/-- C5 (counterexample): at `run_controller cfgW Scenario.full [rowW]` the
recorded `soc` of row 0 is 0.5 — the SoC at the *start* of step 0 — whereas
integrating step 0's 4 kW charge gives the post-step SoC 0.595; the two
differ, so the recorded value is not the post-step SoC. -/
theorem recorded_soc_is_not_post_step :
    Option.map StepRecord.soc ((run_controller cfgW Scenario.full [rowW]).head?) =
        some (1/2) ∧
      stepNextSoc cfgW Scenario.full 0 (1/2) rowW = 119/200 ∧
      ((1:ℚ)/2 ≠ 119/200) := by
  refine ⟨?_, ?_, by norm_num⟩
  · norm_num [run_controller, runAux, stepRecord, stepDispatch, exportCapped,
      greedy_heuristic_step, npQuantileHalf, effImportPrice, pvEffAt, pv_temp_correction_kw,
      pv_degraded_power_kw, paramView, systemParams, socWindow, initSoc, finClip,
      pv_degradation_cost_step, _lambda_batt, _thresholds, cfgW, rowW, min_def, max_def]
  · norm_num [stepNextSoc, soc_next, stepDispatch, exportCapped,
      greedy_heuristic_step, npQuantileHalf, effImportPrice, pvEffAt, pv_temp_correction_kw,
      pv_degraded_power_kw, paramView, systemParams, socWindow,
      _lambda_batt, _thresholds, cfgW, rowW, min_def, max_def]

/-- C5 (amended): for every time index `t` of every run, the `soc` value in
output row `t` is the SoC at the *start* of step `t` (`socStart` — the
initial SoC for `t = 0`, the clamped post-step SoC of step `t-1` otherwise),
passed through the frame-level clip `min (max · window_min) 1`; it is not the
post-step SoC of step `t`. -/
theorem recorded_soc_is_prestep (conf : Config) (scenario : Scenario)
    (rows : List StepInput) (t : ℕ) (ht : t < rows.length) :
    Option.map StepRecord.soc ((run_controller conf scenario rows)[t]?) =
      some (min (max (socStart conf scenario rows t)
        (socWindow (systemParams conf) scenario).1) 1) := by
  rw [run_controller, socStart, List.getElem?_map, Option.map_map]
  have hfun : StepRecord.soc ∘ finClip (socWindow (systemParams conf) scenario).1 =
      (fun q => min (max q (socWindow (systemParams conf) scenario).1) 1) ∘ StepRecord.soc := by
    funext r; rfl
  rw [hfun, ← Option.map_map,
    runAux_get_soc conf scenario rows 0 (initSoc conf) t ht, Option.map_some']

/-- C5 witness: the amended statement at `run_controller cfgW Scenario.full
[rowW]`, row 0. -/
theorem recorded_soc_is_prestep_witness :
    Option.map StepRecord.soc ((run_controller cfgW Scenario.full [rowW])[0]?) =
      some (min (max (socStart cfgW Scenario.full [rowW] 0)
        (socWindow (systemParams cfgW) Scenario.full).1) 1) :=
  recorded_soc_is_prestep cfgW Scenario.full [rowW] 0 (by norm_num)

/-- C6 (code-bug evidence): in scenario "full" with cell temperature 35 °C
(at the suppression threshold), the controller sets the high threshold to
1e9 as intended, yet the recorded discharge of the step is 1 kW, not 0 —
the shipped optimizer never reads the `price_high` override, so the
temperature-based discharge suppression has no effect. -/
theorem full_scenario_hot_step_still_discharges :
    (35 ≤ rowHot.cell_temp_c) ∧
      (effectiveThresholds cfgW Scenario.full rowHot).2 = 1000000000 ∧
      Option.map StepRecord.pdis ((run_controller cfgW Scenario.full [rowHot]).head?) = some 1 ∧
      (1 : ℚ) ≠ 0 := by
  refine ⟨by norm_num [rowHot], ?_, ?_, by norm_num⟩
  · norm_num [effectiveThresholds, _thresholds, cfgW, rowHot]
  · norm_num [run_controller, runAux, stepRecord, stepDispatch, exportCapped,
      greedy_heuristic_step, npQuantileHalf, effImportPrice, pvEffAt, pv_temp_correction_kw,
      pv_degraded_power_kw, paramView, systemParams, socWindow, initSoc, finClip,
      pv_degradation_cost_step, _lambda_batt, _thresholds, cfgW, rowHot, min_def, max_def]

/-- C7: in the single-step dispatch with PV < load (and a positive step
duration), discharge is positive only when the import price strictly exceeds
the 0.5 quantile of `[price_imp, 0.30, 0.40, 0.20]`; when it does, discharge
equals `min(deficit, p_dis_max, available energy above soc_min / dt)` and the
remaining deficit is imported; otherwise the whole deficit is imported; in
both cases charge and export are zero. -/
theorem deficit_dispatch_spec (pv_kw load_kw price_imp price_exp soc : ℚ)
    (params : SystemParams) (hload : pv_kw < load_kw) (hdt : 0 < params.dt_h) :
    (0 < (greedy_heuristic_step pv_kw load_kw price_imp price_exp soc params).pdis →
        npQuantileHalf price_imp (3/10) (2/5) (1/5) < price_imp) ∧
      (npQuantileHalf price_imp (3/10) (2/5) (1/5) < price_imp →
        (greedy_heuristic_step pv_kw load_kw price_imp price_exp soc params).pdis =
            min (load_kw - pv_kw) (min params.p_dis_max
              (max 0 ((soc - params.soc_min) * params.e_nom_kwh) / params.dt_h)) ∧
          (greedy_heuristic_step pv_kw load_kw price_imp price_exp soc params).pimp =
            load_kw - pv_kw -
              (greedy_heuristic_step pv_kw load_kw price_imp price_exp soc params).pdis ∧
          (greedy_heuristic_step pv_kw load_kw price_imp price_exp soc params).pch = 0 ∧
          (greedy_heuristic_step pv_kw load_kw price_imp price_exp soc params).pexp = 0) ∧
      (¬ npQuantileHalf price_imp (3/10) (2/5) (1/5) < price_imp →
        (greedy_heuristic_step pv_kw load_kw price_imp price_exp soc params).pdis = 0 ∧
          (greedy_heuristic_step pv_kw load_kw price_imp price_exp soc params).pimp =
            load_kw - pv_kw ∧
          (greedy_heuristic_step pv_kw load_kw price_imp price_exp soc params).pch = 0 ∧
          (greedy_heuristic_step pv_kw load_kw price_imp price_exp soc params).pexp = 0) := by
  have hnn : ¬ 0 ≤ pv_kw - load_kw := not_le.mpr (by linarith)
  by_cases hq : npQuantileHalf price_imp (3/10) (2/5) (1/5) < price_imp
  · refine ⟨fun _ => hq, fun _ => ?_, fun h => absurd hq h⟩
    simp only [greedy_heuristic_step, if_neg hnn, if_pos hq]
    refine ⟨?_, ?_, trivial, trivial⟩
    · rw [neg_sub, min_comm]
    · rw [neg_sub]
      exact max_eq_right (sub_nonneg.mpr (min_le_right _ _))
  · refine ⟨?_, fun h => absurd h hq, fun _ => ?_⟩
    · intro hpos
      simp only [greedy_heuristic_step, if_neg hnn, if_neg hq] at hpos
      exact absurd hpos (lt_irrefl 0)
    · simp only [greedy_heuristic_step, if_neg hnn, if_neg hq]
      refine ⟨trivial, ?_, trivial, trivial⟩
      rw [neg_sub]
      exact max_eq_right (by linarith)

/-- C7 witness: the deficit dispatch at PV 0 kW, load 1 kW, import price
0.50, SoC 0.5 with parameters `prmW` (the quantile is 0.35 < 0.50, so the
battery discharges 1 kW). -/
theorem deficit_dispatch_spec_witness :
    (0 < (greedy_heuristic_step 0 1 (1/2) (1/10) (1/2) prmW).pdis →
        npQuantileHalf (1/2) (3/10) (2/5) (1/5) < 1/2) ∧
      (npQuantileHalf (1/2) (3/10) (2/5) (1/5) < 1/2 →
        (greedy_heuristic_step 0 1 (1/2) (1/10) (1/2) prmW).pdis =
            min ((1:ℚ) - 0) (min prmW.p_dis_max
              (max 0 ((1/2 - prmW.soc_min) * prmW.e_nom_kwh) / prmW.dt_h)) ∧
          (greedy_heuristic_step 0 1 (1/2) (1/10) (1/2) prmW).pimp =
            (1:ℚ) - 0 - (greedy_heuristic_step 0 1 (1/2) (1/10) (1/2) prmW).pdis ∧
          (greedy_heuristic_step 0 1 (1/2) (1/10) (1/2) prmW).pch = 0 ∧
          (greedy_heuristic_step 0 1 (1/2) (1/10) (1/2) prmW).pexp = 0) ∧
      (¬ npQuantileHalf (1/2) (3/10) (2/5) (1/5) < 1/2 →
        (greedy_heuristic_step 0 1 (1/2) (1/10) (1/2) prmW).pdis = 0 ∧
          (greedy_heuristic_step 0 1 (1/2) (1/10) (1/2) prmW).pimp = (1:ℚ) - 0 ∧
          (greedy_heuristic_step 0 1 (1/2) (1/10) (1/2) prmW).pch = 0 ∧
          (greedy_heuristic_step 0 1 (1/2) (1/10) (1/2) prmW).pexp = 0) :=
  deficit_dispatch_spec 0 1 (1/2) (1/10) (1/2) prmW (by norm_num) (by norm_num [prmW])

/-- C8: `pv_degraded_power_kw` equals `pv_raw * max(0, 1 - rate*t/8760)`; for
fixed non-negative raw power and positive rate it is non-increasing in
elapsed hours; once the derating factor reaches zero the output is zero; and
the output is never negative. -/
theorem pv_degraded_power_spec (pv_raw annual_rate t1 t2 : ℚ)
    (hraw : 0 ≤ pv_raw) (hrate : 0 < annual_rate) (ht : t1 ≤ t2) :
    pv_degraded_power_kw pv_raw t1 annual_rate =
        pv_raw * max 0 (1 - annual_rate * (t1 / 8760)) ∧
      pv_degraded_power_kw pv_raw t2 annual_rate ≤ pv_degraded_power_kw pv_raw t1 annual_rate ∧
      (1 - annual_rate * (t1 / 8760) ≤ 0 → pv_degraded_power_kw pv_raw t1 annual_rate = 0) ∧
      0 ≤ pv_degraded_power_kw pv_raw t1 annual_rate := by
  refine ⟨rfl, ?_, ?_, ?_⟩
  · rw [pv_degraded_power_kw, pv_degraded_power_kw]
    apply mul_le_mul_of_nonneg_left _ hraw
    apply max_le_max (le_refl 0)
    have h8 : t1 / 8760 ≤ t2 / 8760 := by linarith
    have h9 : annual_rate * (t1 / 8760) ≤ annual_rate * (t2 / 8760) :=
      mul_le_mul_of_nonneg_left h8 hrate.le
    linarith
  · intro h
    rw [pv_degraded_power_kw, max_eq_left h, mul_zero]
  · exact mul_nonneg hraw (le_max_left _ _)

/-- C8 witness: the PV aging facts at 5 kW raw power, 1 %/yr, between hours
0 and 8760. -/
theorem pv_degraded_power_spec_witness :
    pv_degraded_power_kw 5 0 (1/100) = 5 * max 0 (1 - (1/100) * (0 / 8760)) ∧
      pv_degraded_power_kw 5 8760 (1/100) ≤ pv_degraded_power_kw 5 0 (1/100) ∧
      (1 - (1/100) * ((0:ℚ) / 8760) ≤ 0 → pv_degraded_power_kw 5 0 (1/100) = 0) ∧
      0 ≤ pv_degraded_power_kw 5 0 (1/100) :=
  pv_degraded_power_spec 5 (1/100) 0 8760 (by norm_num) (by norm_num) (by norm_num)

/-- C9 (counterexample): with nominal capacity 0.5 kWh — permitted by the
configuration contract, which bounds no capacity — one 1 kW discharge step of
0.25 h gives `equivalent_full_cycles = 0.25` (the code divides by
`max(capacity, 1) = 1`), whereas discharged energy ÷ capacity is 0.5. -/
theorem efc_small_capacity_counterexample :
    kpi_lifecycle [1] (1/4) (1/2) = 1/4 ∧ ((1:ℚ) * (1/4)) / (1/2) = 1/2 ∧
      ((1:ℚ)/4 ≠ 1/2) := by
  refine ⟨?_, by norm_num, by norm_num⟩
  norm_num [kpi_lifecycle, max_def]

/-- C9 (amended): `equivalent_full_cycles` equals total discharged energy
(sum of non-negative discharge powers times step duration) divided by
`max(nominal capacity, 1)`; whenever the capacity is at least 1 kWh this is
exactly discharged energy divided by nominal capacity, as claimed. -/
theorem equivalent_full_cycles_amended (pdis : List ℚ) (dt_h e_nom_kwh : ℚ)
    (hcap : 1 ≤ e_nom_kwh) (hnn : ∀ p ∈ pdis, 0 ≤ p) :
    kpi_lifecycle pdis dt_h e_nom_kwh = (pdis.sum * dt_h) / e_nom_kwh := by
  have hmap : ∀ (l : List ℚ), (∀ p ∈ l, 0 ≤ p) → l.map (fun p => max p 0) = l := by
    intro l hl
    induction l with
    | nil => rfl
    | cons p tl ih =>
        rw [List.map_cons, ih (fun q hq => hl q (List.mem_cons_of_mem _ hq)),
          max_eq_left (hl p (List.mem_cons_self _ _))]
  rw [kpi_lifecycle, hmap pdis hnn, max_eq_left hcap]

/-- C9 witness: the equivalent-full-cycles formula on the discharge series
[1, 2] kW at 0.25 h steps with a 2 kWh battery. -/
theorem equivalent_full_cycles_amended_witness :
    kpi_lifecycle [1, 2] (1/4) 2 = (([1, 2] : List ℚ).sum * (1/4)) / 2 :=
  equivalent_full_cycles_amended [1, 2] (1/4) 2 (by norm_num)
    (by norm_num [List.forall_mem_cons])

/-- C10: the dispatch 4-tuple returned by `greedy_heuristic_step` does not
depend on the export price — two invocations differing only in `price_exp`
return identical tuples (the parameter is never read). -/
theorem dispatch_independent_of_export_price
    (pv_kw load_kw price_imp price_exp price_exp' soc : ℚ) (params : SystemParams) :
    greedy_heuristic_step pv_kw load_kw price_imp price_exp soc params =
      greedy_heuristic_step pv_kw load_kw price_imp price_exp' soc params := rfl

end MADT
